import Mathlib

/-!
Verification of the remediation decision engine of `monitor.py`
(the `pi-monitor` repository): the cache-first / AI-fallback /
learn-on-success control flow (`intelligent_troubleshoot`), the
provider chain with shared exponential backoff (`ask_ai_hybrid`),
and the persistent fix cache (`FIX_CACHE` load, `save_cache`).

Python text values are embedded as `List Char`; the Python string
operations the engine uses (`split`, `replace`, `strip`, the `in`
operator, negative indexing) are defined below as executable,
structurally recursive Lean functions that mirror the Python
semantics on the inputs the engine feeds them.
-/

set_option autoImplicit false

namespace PiMonitor

/-- Python strings, embedded as lists of characters. -/
abbrev Str := List Char

/-- Prefix test: `pyStarts hay pat` is `hay.startswith(pat)`: `pat` is a prefix of `hay`. -/
def pyStarts : Str → Str → Bool
  | _, [] => true
  | [], _ :: _ => false
  | c :: cs, p :: ps => c == p && pyStarts cs ps

/-- Substring test: `pyContains hay pat` is Python's `pat in hay` (substring test). -/
def pyContains : Str → Str → Bool
  | [], pat => pat.isEmpty
  | c :: rest, pat => pyStarts (c :: rest) pat || pyContains rest pat

/-- Strip: `pyStrip s` is Python's `s.strip()`: remove leading and trailing whitespace. -/
def pyStrip (s : Str) : Str :=
  ((s.dropWhile Char.isWhitespace).reverse.dropWhile Char.isWhitespace).reverse

/-- Split: `pySplit sep s` is Python's `s.split(sep)` for a one-character separator:
the result is always nonempty, and empty fields are kept. -/
def pySplit (sep : Char) : Str → List Str
  | [] => [[]]
  | c :: rest =>
    if c = sep then [] :: pySplit sep rest
    else
      match pySplit sep rest with
      | [] => [[c]]
      | g :: gs => (c :: g) :: gs

/-- Negative indexing: `pyLast l` is Python's `l[-1]` on a list of strings (with `[]` for an
empty list; the engine only applies it to results of `pySplit`, which are
never empty). -/
def pyLast : List Str → Str
  | [] => []
  | [x] => x
  | _ :: x :: rest => pyLast (x :: rest)

/-- Fuel-indexed worker for `pyReplace`; the fuel starts at the length of the
string and never runs out on that diet because every step consumes at least
one character. -/
def pyReplaceFuel : Nat → Str → Str → Str → Str
  | 0, s, _, _ => s
  | _ + 1, [], _, _ => []
  | fuel + 1, c :: rest, pat, repl =>
    if pat ≠ [] ∧ pyStarts (c :: rest) pat then
      repl ++ pyReplaceFuel fuel ((c :: rest).drop pat.length) pat repl
    else
      c :: pyReplaceFuel fuel rest pat repl

/-- Replace: `pyReplace s pat repl` is Python's `s.replace(pat, repl)` for a nonempty
`pat`: replace every non-overlapping occurrence, scanning left to right. -/
def pyReplace (s pat repl : Str) : Str :=
  pyReplaceFuel s.length s pat repl

/-! ### The fix cache (`FIX_CACHE`): a mapping from problem keys to commands -/

/-- The in-memory fix cache: a finite mapping from problem-key strings to
command strings, embedded as an association list with at most one binding
per key. -/
abbrev Cache := List (Str × Str)

/-- Dictionary lookup, `FIX_CACHE.get(key)` / `key in FIX_CACHE`. -/
def lookupA (k : Str) : Cache → Option Str
  | [] => none
  | (k2, v) :: rest => if k2 = k then some v else lookupA k rest

/-- Dictionary assignment, `FIX_CACHE[key] = cmd`: overwrite the binding for
`key` if present, otherwise append a new one. -/
def insertA (k v : Str) : Cache → Cache
  | [] => [(k, v)]
  | (k2, v2) :: rest => if k2 = k then (k, v) :: rest else (k2, v2) :: insertA k v rest

/-! ### Notifications (`send_msg` events), abstracted by tag and payload -/

/-- One notification sent through `send_msg`, identified by which call site
in the source emitted it together with its data payload. -/
inductive Msg where
  | issueDetected (desc : Str)
  | memoryTrying (cmd : Str)
  | fixedViaMemory (output : Str)
  | memoryFailed (output : Str)
  | switchingToChatGPT
  | allDead (waitMin : Nat)
  | aiFailure (text : Str)
  | aiSuggests (cmd : Str)
  | aiFixedIt (output : Str)
  | aiFixFailed (output : Str)
  | cacheSaveError (err : Str)
  deriving DecidableEq, Repr

/-! ### Backoff state and the provider chain (`ask_ai_hybrid`) -/

/-- The `ERROR_BACKOFF` record: shared backoff state of the provider chain.
`wait_min` is in minutes, `next_try` is a timestamp in seconds
(`time.time()` is embedded as a natural number of seconds). -/
structure Backoff where
  active : Bool
  wait_min : Nat
  next_try : Nat
  deriving DecidableEq, Repr

/-- Initial value of `ERROR_BACKOFF` at startup. -/
def ERROR_BACKOFF_init : Backoff := { active := false, wait_min := 5, next_try := 0 }

/-- The environment of reasoning providers for one `ask_ai_hybrid` call:
each provider either answers a given prompt with raw text (`some`) or
fails with a transport/quota error (`none`); the secondary provider only
exists when `openai_client` was configured. -/
structure ProviderEnv where
  gemini : Str → Option Str
  openaiConfigured : Bool
  openai : Str → Option Str

/-- Result of one `ask_ai_hybrid` call: the returned text, the backoff state
after the call, how many provider calls were made, and the notifications
sent during the call. -/
structure AskOut where
  text : Str
  backoff : Backoff
  providerCalls : Nat
  msgs : List Msg
  deriving DecidableEq, Repr

/-- The chain `ask_ai_hybrid(prompt)`: gate on the shared backoff, then try Gemini,
then (if configured) OpenAI; if every provider fails, arm the backoff
window and double the wait. Provider answers are `.strip()`ped. -/
def ask_ai_hybrid (prompt : Str) (env : ProviderEnv) (now : Nat) (st : Backoff) : AskOut :=
  if st.active = true ∧ now < st.next_try then
    { text := "ERROR: AI Cooling Down".toList, backoff := st, providerCalls := 0, msgs := [] }
  else
    match env.gemini prompt with
    | some t => { text := pyStrip t, backoff := st, providerCalls := 1, msgs := [] }
    | none =>
      if env.openaiConfigured then
        match env.openai prompt with
        | some t =>
          { text := pyStrip t, backoff := st, providerCalls := 2,
            msgs := [Msg.switchingToChatGPT] }
        | none =>
          { text := "ERROR: Unavailable".toList,
            backoff :=
              { active := true, wait_min := st.wait_min * 2,
                next_try := now + st.wait_min * 60 },
            providerCalls := 2,
            msgs := [Msg.switchingToChatGPT, Msg.allDead st.wait_min] }
      else
        { text := "ERROR: Unavailable".toList,
          backoff :=
            { active := true, wait_min := st.wait_min * 2,
              next_try := now + st.wait_min * 60 },
          providerCalls := 1,
          msgs := [Msg.allDead st.wait_min] }

/-- A sequence of `ask_ai_hybrid` calls at the given times, threading the
backoff state; returns the per-call outputs and the final state. -/
def ask_run (prompt : Str) (env : ProviderEnv) : List Nat → Backoff → List AskOut × Backoff
  | [], st => ([], st)
  | t :: ts, st =>
    let o := ask_ai_hybrid prompt env t st
    let r := ask_run prompt env ts o.backoff
    (o :: r.1, r.2)

/-- Every call of the sequence reaches the providers (the backoff gate is
passed at each step): the discrete-time eligibility check. -/
def eligibleRunB (prompt : Str) (env : ProviderEnv) : List Nat → Backoff → Bool
  | [], _ => true
  | t :: ts, st =>
    !(st.active && decide (t < st.next_try)) &&
      eligibleRunB prompt env ts (ask_ai_hybrid prompt env t st).backoff

/-! ### Persistence: `save_cache`, the learn step, and the startup load -/

/-- Persistence `save_cache()`: rewrite the persisted file with the in-memory mapping.
`w` is the outcome of the underlying file write (`.ok` or an exception);
an exception is caught, reported as a notification-level message, and the
previous disk contents stay in place. The function is total: no error
propagates to the caller. -/
def save_cache (w : Except Str Unit) (mem disk : Cache) : Cache × List Msg :=
  match w with
  | Except.ok _ => (mem, [])
  | Except.error e => (disk, [Msg.cacheSaveError e])

/-- The learn step of `intelligent_troubleshoot` (`FIX_CACHE[problem_key] =
cmd; save_cache()`): update the in-memory mapping, then persist it.
Returns the new in-memory mapping, the new disk contents, and any
absorbed-error report. -/
def learn (k cmd : Str) (mem disk : Cache) (w : Except Str Unit) : Cache × Cache × List Msg :=
  let mem2 := insertA k cmd mem
  let saved := save_cache w mem2 disk
  (mem2, saved.1, saved.2)

/-- The startup load of `FIX_CACHE`: start from the empty mapping; if the
cache file exists, try to read and parse it (`readParse` is the outcome of
`json.load`), falling back to the empty mapping on any exception. -/
def startup_load (fileExists : Bool) (readParse : Except Str Cache) : Cache :=
  if fileExists then
    match readParse with
    | Except.ok m => m
    | Except.error _ => []
  else []

/-! ### Suggestion parsing -/

/-- Command extraction of `intelligent_troubleshoot`:
`ai_cmd.split('\n')[-1].replace('MAJOR: ', '').strip()`. -/
def extract_cmd (ai_cmd : Str) : Str :=
  pyStrip (pyReplace (pyLast (pySplit '\x0a' ai_cmd)) ("MAJOR: ".toList) [])

/-- The `is_major` classification:
`"MAJOR:" in ai_cmd or "rm " in cmd or "reboot" in cmd`. -/
def compute_is_major (ai_cmd cmd : Str) : Bool :=
  pyContains ai_cmd ("MAJOR:".toList) || pyContains cmd ("rm ".toList) ||
    pyContains cmd ("reboot".toList)

/-- Modelled from the spec: the "last non-empty line" of the raw text
(spec §4.2: "`command` is the last non-empty line"), for comparison with
the command the code actually extracts. -/
def spec_last_nonempty_line (raw : Str) : Str :=
  pyLast ((pySplit '\x0a' raw).filter (fun l => !l.isEmpty))

/-- The in-band error marker of the provider chain: `intelligent_troubleshoot`
treats any answer with `"ERROR" in ai_cmd` as AI failure. -/
def ERROR_marker : Str := "ERROR".toList

/-- The note appended to the problem description when a cached fix failed:
`"\nNote: I already tried '{cached_cmd}' and it failed."`. -/
def failNote (cached_cmd : Str) : Str :=
  "\x0aNote: I already tried \x27".toList ++ cached_cmd ++ "\x27 and it failed.".toList

/-! ### The remediation engine: `intelligent_troubleshoot` -/

/-- Result of one `intelligent_troubleshoot` invocation: the returned
boolean, the in-memory cache and the persisted cache afterwards, the
backoff state afterwards, the commands passed to `run_host_cmd` in order,
the prompts passed to `ask_ai_hybrid` in order, the number of provider
calls, and the notifications sent. -/
structure TsOut where
  fixed : Bool
  cache : Cache
  disk : Cache
  backoff : Backoff
  executed : List Str
  asked : List Str
  providerCalls : Nat
  msgs : List Msg
  deriving DecidableEq, Repr

/-- The AI phase of `intelligent_troubleshoot` (STEP 2 onwards): ask the
provider chain, bail out if the answer carries the in-band `"ERROR"`
marker, otherwise extract the command, classify it, execute it, and on
success learn it. `execIdx` is the index of the next `run_host_cmd` call
in this invocation; `msgs0`/`executed0` carry what happened before the AI
phase. -/
def ai_phase (problem_key prompt : Str) (cache disk : Cache) (bo : Backoff) (now : Nat)
    (env : ProviderEnv) (exec : Nat → Bool × Str) (execIdx : Nat)
    (msgs0 : List Msg) (executed0 : List Str) (writeResult : Except Str Unit) : TsOut :=
  let a := ask_ai_hybrid prompt env now bo
  if pyContains a.text ERROR_marker then
    { fixed := false, cache := cache, disk := disk, backoff := a.backoff,
      executed := executed0, asked := [prompt], providerCalls := a.providerCalls,
      msgs := msgs0 ++ a.msgs ++ [Msg.aiFailure a.text] }
  else
    let cmd := extract_cmd a.text
    let is_major := compute_is_major a.text cmd
    let r := exec execIdx
    if r.1 then
      let l := learn problem_key cmd cache disk writeResult
      { fixed := true, cache := l.1, disk := l.2.1, backoff := a.backoff,
        executed := executed0 ++ [cmd], asked := [prompt], providerCalls := a.providerCalls,
        msgs := msgs0 ++ a.msgs ++ [Msg.aiSuggests cmd, Msg.aiFixedIt r.2] ++ l.2.2 }
    else
      { fixed := false, cache := cache, disk := disk, backoff := a.backoff,
        executed := executed0 ++ [cmd], asked := [prompt], providerCalls := a.providerCalls,
        msgs := msgs0 ++ a.msgs ++ [Msg.aiSuggests cmd, Msg.aiFixFailed r.2] }

/-- The engine `intelligent_troubleshoot(problem_key, problem_desc)`: notify, try the
cached fix if one is known (returning on success, annotating the
description and falling through on failure), then run the AI phase.
`exec` is the command executor: `exec i` is the outcome (success flag and
combined output) of the `i`-th `run_host_cmd` call of this invocation;
`writeResult` is the outcome of the cache-file write should a learn
happen. -/
def intelligent_troubleshoot (problem_key problem_desc : Str) (cache disk : Cache)
    (bo : Backoff) (now : Nat) (env : ProviderEnv) (exec : Nat → Bool × Str)
    (writeResult : Except Str Unit) : TsOut :=
  match lookupA problem_key cache with
  | some cached_cmd =>
    let r := exec 0
    if r.1 then
      { fixed := true, cache := cache, disk := disk, backoff := bo,
        executed := [cached_cmd], asked := [], providerCalls := 0,
        msgs := [Msg.issueDetected problem_desc, Msg.memoryTrying cached_cmd,
                 Msg.fixedViaMemory r.2] }
    else
      ai_phase problem_key (problem_desc ++ failNote cached_cmd) cache disk bo now env exec 1
        [Msg.issueDetected problem_desc, Msg.memoryTrying cached_cmd, Msg.memoryFailed r.2]
        [cached_cmd] writeResult
  | none =>
    ai_phase problem_key problem_desc cache disk bo now env exec 0
      [Msg.issueDetected problem_desc] [] writeResult

/-- Variant of `ai_phase` in which the value bound to `is_major` is forced
to an arbitrary boolean instead of the computed classification; used to
state that the engine's behavior does not depend on it. -/
def ai_phase_forcedMajor (b : Bool) (problem_key prompt : Str) (cache disk : Cache)
    (bo : Backoff) (now : Nat) (env : ProviderEnv) (exec : Nat → Bool × Str) (execIdx : Nat)
    (msgs0 : List Msg) (executed0 : List Str) (writeResult : Except Str Unit) : TsOut :=
  let a := ask_ai_hybrid prompt env now bo
  if pyContains a.text ERROR_marker then
    { fixed := false, cache := cache, disk := disk, backoff := a.backoff,
      executed := executed0, asked := [prompt], providerCalls := a.providerCalls,
      msgs := msgs0 ++ a.msgs ++ [Msg.aiFailure a.text] }
  else
    let cmd := extract_cmd a.text
    let is_major := b
    let r := exec execIdx
    if r.1 then
      let l := learn problem_key cmd cache disk writeResult
      { fixed := true, cache := l.1, disk := l.2.1, backoff := a.backoff,
        executed := executed0 ++ [cmd], asked := [prompt], providerCalls := a.providerCalls,
        msgs := msgs0 ++ a.msgs ++ [Msg.aiSuggests cmd, Msg.aiFixedIt r.2] ++ l.2.2 }
    else
      { fixed := false, cache := cache, disk := disk, backoff := a.backoff,
        executed := executed0 ++ [cmd], asked := [prompt], providerCalls := a.providerCalls,
        msgs := msgs0 ++ a.msgs ++ [Msg.aiSuggests cmd, Msg.aiFixFailed r.2] }

/-- Variant of `intelligent_troubleshoot` using `ai_phase_forcedMajor`. -/
def intelligent_troubleshoot_forcedMajor (b : Bool) (problem_key problem_desc : Str)
    (cache disk : Cache) (bo : Backoff) (now : Nat) (env : ProviderEnv)
    (exec : Nat → Bool × Str) (writeResult : Except Str Unit) : TsOut :=
  match lookupA problem_key cache with
  | some cached_cmd =>
    let r := exec 0
    if r.1 then
      { fixed := true, cache := cache, disk := disk, backoff := bo,
        executed := [cached_cmd], asked := [], providerCalls := 0,
        msgs := [Msg.issueDetected problem_desc, Msg.memoryTrying cached_cmd,
                 Msg.fixedViaMemory r.2] }
    else
      ai_phase_forcedMajor b problem_key (problem_desc ++ failNote cached_cmd) cache disk bo
        now env exec 1
        [Msg.issueDetected problem_desc, Msg.memoryTrying cached_cmd, Msg.memoryFailed r.2]
        [cached_cmd] writeResult
  | none =>
    ai_phase_forcedMajor b problem_key problem_desc cache disk bo now env exec 0
      [Msg.issueDetected problem_desc] [] writeResult

/-! ### Concrete fixtures for evaluating the engine on closed inputs -/

/-- Provider environment in which every provider fails on every prompt. -/
def noProviderEnv : ProviderEnv :=
  { gemini := fun _ => none, openaiConfigured := false, openai := fun _ => none }

/-- Provider environment whose primary provider always answers `t`
(secondary tier not configured). -/
def geminiEnv (t : Str) : ProviderEnv :=
  { gemini := fun _ => some t, openaiConfigured := false, openai := fun _ => none }

/-- Command executor whose every call reports outcome `b` with empty output. -/
def execConst (b : Bool) : Nat → Bool × Str := fun _ => (b, [])

/-- Command executor that fails the first call and succeeds afterwards. -/
def execFailThenOk : Nat → Bool × Str := fun i => if i = 0 then (false, []) else (true, [])

/-! ### Helper lemmas -/

theorem lookupA_insertA_self (k v : Str) (c : Cache) :
    lookupA k (insertA k v c) = some v := by
  induction c with
  | nil => simp [insertA, lookupA]
  | cons p rest ih =>
    obtain ⟨k2, v2⟩ := p
    by_cases h : k2 = k
    · simp [insertA, h, lookupA]
    · simp [insertA, h, lookupA, ih]

theorem pyStarts_iff : ∀ (pat hay : Str), pyStarts hay pat = true ↔ ∃ t, pat ++ t = hay := by
  intro pat
  induction pat with
  | nil =>
    intro hay
    cases hay <;> simp [pyStarts]
  | cons p ps ih =>
    intro hay
    cases hay with
    | nil => simp [pyStarts]
    | cons c cs =>
      simp only [pyStarts, Bool.and_eq_true, beq_iff_eq, ih]
      constructor
      · rintro ⟨rfl, t, rfl⟩; exact ⟨t, rfl⟩
      · rintro ⟨t, h⟩
        injection h with h1 h2
        exact ⟨h1.symm, t, h2⟩

theorem pyContains_iff (hay pat : Str) :
    pyContains hay pat = true ↔ ∃ s t, s ++ pat ++ t = hay := by
  induction hay with
  | nil =>
    constructor
    · intro h
      have hp : pat = [] := by
        cases pat with
        | nil => rfl
        | cons p ps => simp [pyContains] at h
      subst hp
      exact ⟨[], [], rfl⟩
    · rintro ⟨s, t, h⟩
      have hp : pat = [] := (List.append_eq_nil.mp (List.append_eq_nil.mp h).1).2
      subst hp
      simp [pyContains]
  | cons c rest ih =>
    simp only [pyContains, Bool.or_eq_true, pyStarts_iff, ih]
    constructor
    · rintro (⟨t, h⟩ | ⟨s, t, h⟩)
      · exact ⟨[], t, by simpa using h⟩
      · exact ⟨c :: s, t, by simpa using h⟩
    · rintro ⟨s, t, h⟩
      cases s with
      | nil => exact Or.inl ⟨t, by simpa using h⟩
      | cons s0 srest =>
        injection h with h1 h2
        exact Or.inr ⟨srest, t, h2⟩

theorem pySplit_ne_nil (sep : Char) : ∀ s : Str, pySplit sep s ≠ [] := by
  intro s
  induction s with
  | nil => simp [pySplit]
  | cons c rest ih =>
    simp only [pySplit]
    split
    · simp
    · split
      · simp
      · simp

theorem pyLast_cons_ne_nil (a : Str) (l : List Str) (h : pyLast l ≠ []) :
    pyLast (a :: l) = pyLast l := by
  cases l with
  | nil => simp [pyLast] at h
  | cons b rest => rfl

theorem pyLast_cons_cons (a b : Str) (l : List Str) :
    pyLast (a :: b :: l) = pyLast (b :: l) := rfl

theorem pySplit_cons (sep c : Char) (rest : Str) :
    pySplit sep (c :: rest) =
      if c = sep then [] :: pySplit sep rest
      else
        match pySplit sep rest with
        | [] => [[c]]
        | g :: gs => (c :: g) :: gs := rfl

theorem pyLast_pySplit_ne_nil (sep : Char) :
    ∀ (raw : Str) (c : Char), raw.getLast? = some c → c ≠ sep →
      pyLast (pySplit sep raw) ≠ [] := by
  intro raw
  induction raw with
  | nil => intro c h; simp at h
  | cons c0 rest ih =>
    intro c hlast hne
    cases rest with
    | nil =>
      simp at hlast
      subst hlast
      rw [pySplit_cons, if_neg hne]
      simp [pySplit, pyLast]
    | cons c1 rest2 =>
      rw [List.getLast?_cons_cons] at hlast
      have ihr := ih c hlast hne
      rcases hsp : pySplit sep (c1 :: rest2) with _ | ⟨g, gs⟩
      · exact absurd hsp (pySplit_ne_nil sep (c1 :: rest2))
      rw [hsp] at ihr
      rw [pySplit_cons, hsp]
      by_cases h0 : c0 = sep
      · rw [if_pos h0]
        cases gs with
        | nil => simpa [pyLast] using ihr
        | cons g1 gs2 => simpa [pyLast] using ihr
      · rw [if_neg h0]
        cases gs with
        | nil => simp [pyLast]
        | cons g1 gs2 => simpa [pyLast] using ihr

theorem pyLast_filter_nonempty :
    ∀ ps : List Str, ps ≠ [] → pyLast ps ≠ [] →
      pyLast (ps.filter (fun l => !l.isEmpty)) = pyLast ps := by
  intro ps
  induction ps with
  | nil => intro h; exact absurd rfl h
  | cons a tail ih =>
    intro _ hlast
    cases tail with
    | nil =>
      simp only [pyLast] at hlast
      rcases a with _ | ⟨x, xs⟩
      · exact absurd rfl hlast
      · rfl
    | cons b rest =>
      rw [pyLast_cons_cons] at hlast
      have ihr := ih (by simp) hlast
      rw [pyLast_cons_cons, List.filter_cons]
      by_cases ha : a = []
      · subst ha
        simp only [List.isEmpty_nil, Bool.not_true, Bool.false_eq_true, if_false]
        exact ihr
      · have hfa : (!a.isEmpty) = true := by
          rcases a with _ | ⟨x, xs⟩
          · exact absurd rfl ha
          · rfl
        rw [hfa, if_pos rfl]
        rcases hf : (b :: rest).filter (fun l => !l.isEmpty) with _ | ⟨f0, frest⟩
        · rw [hf] at ihr
          exact absurd ihr.symm hlast
        · rw [hf] at ihr
          rw [hf, pyLast_cons_ne_nil a (f0 :: frest) (by rw [ihr]; exact hlast)]
          exact ihr

theorem head?_dropWhile_not (p : Char → Bool) :
    ∀ (l : Str) (c : Char), (l.dropWhile p).head? = some c → p c = false := by
  intro l
  induction l with
  | nil => intro c h; simp [List.dropWhile] at h
  | cons a t ih =>
    intro c h
    rw [List.dropWhile_cons] at h
    split at h
    · exact ih c h
    · simp at h
      subst h
      simp_all

theorem getLast?_of_pyStrip_fixed (raw : Str) (htr : pyStrip raw = raw) :
    ∀ c : Char, raw.getLast? = some c → c.isWhitespace = false := by
  intro c hlast
  have hrev : raw.reverse = List.dropWhile Char.isWhitespace
      (raw.dropWhile Char.isWhitespace).reverse := by
    conv_lhs => rw [← htr]
    simp [pyStrip]
  have hhead : raw.reverse.head? = some c := by
    rw [List.head?_reverse]
    exact hlast
  rw [hrev] at hhead
  exact head?_dropWhile_not Char.isWhitespace _ c hhead

theorem lastline_eq_spec_last_nonempty (raw : Str) (hne : raw ≠ [])
    (htr : pyStrip raw = raw) :
    pyLast (pySplit '\x0a' raw) = spec_last_nonempty_line raw := by
  rcases hlast : raw.getLast? with _ | c
  · exact absurd (List.getLast?_eq_none_iff.mp hlast) hne
  · have hws := getLast?_of_pyStrip_fixed raw htr c hlast
    have hcn : c ≠ '\x0a' := by
      intro h
      subst h
      simp at hws
    have h1 := pyLast_pySplit_ne_nil '\x0a' raw c hlast hcn
    have h2 := pyLast_filter_nonempty (pySplit '\x0a' raw) (pySplit_ne_nil _ raw) h1
    unfold spec_last_nonempty_line
    exact h2.symm

theorem ask_gate (prompt : Str) (env : ProviderEnv) (now : Nat) (st : Backoff)
    (h : st.active = true ∧ now < st.next_try) :
    ask_ai_hybrid prompt env now st =
      { text := "ERROR: AI Cooling Down".toList, backoff := st,
        providerCalls := 0, msgs := [] } := by
  rw [ask_ai_hybrid, if_pos h]

theorem ask_gemini_ok (prompt : Str) (env : ProviderEnv) (now : Nat) (st : Backoff)
    (t : Str) (hgate : ¬(st.active = true ∧ now < st.next_try))
    (hg : env.gemini prompt = some t) :
    ask_ai_hybrid prompt env now st =
      { text := pyStrip t, backoff := st, providerCalls := 1, msgs := [] } := by
  rw [ask_ai_hybrid, if_neg hgate, hg]

theorem ask_allfail (prompt : Str) (env : ProviderEnv) (now : Nat) (st : Backoff)
    (hgate : ¬(st.active = true ∧ now < st.next_try))
    (hg : env.gemini prompt = none) (ho : env.openai prompt = none) :
    (ask_ai_hybrid prompt env now st).text = "ERROR: Unavailable".toList ∧
      (ask_ai_hybrid prompt env now st).backoff =
        { active := true, wait_min := st.wait_min * 2,
          next_try := now + st.wait_min * 60 } := by
  rw [ask_ai_hybrid, if_neg hgate, hg]
  cases env.openaiConfigured <;> simp [ho]

theorem ask_backoff_cases (prompt : Str) (env : ProviderEnv) (now : Nat) (st : Backoff) :
    (ask_ai_hybrid prompt env now st).backoff = st ∨
      (ask_ai_hybrid prompt env now st).backoff =
        { active := true, wait_min := st.wait_min * 2,
          next_try := now + st.wait_min * 60 } := by
  rw [ask_ai_hybrid]
  split
  · exact Or.inl rfl
  · cases env.gemini prompt with
    | some t => exact Or.inl rfl
    | none =>
      cases env.openaiConfigured
      · exact Or.inr rfl
      · cases env.openai prompt with
        | some t => exact Or.inl rfl
        | none => exact Or.inr rfl

theorem ask_gemini_preserves (prompt : Str) (env : ProviderEnv) (now : Nat) (st : Backoff)
    (t : Str) (hg : env.gemini prompt = some t) :
    (ask_ai_hybrid prompt env now st).backoff = st := by
  rw [ask_ai_hybrid]
  split
  · rfl
  · rw [hg]

theorem ai_phase_asked (problem_key prompt : Str) (cache disk : Cache) (bo : Backoff)
    (now : Nat) (env : ProviderEnv) (exec : Nat → Bool × Str) (execIdx : Nat)
    (msgs0 : List Msg) (executed0 : List Str) (w : Except Str Unit) :
    (ai_phase problem_key prompt cache disk bo now env exec execIdx msgs0 executed0 w).asked =
      [prompt] := by
  rw [ai_phase]
  dsimp only
  split
  · rfl
  · split <;> rfl

theorem ai_phase_backoff (problem_key prompt : Str) (cache disk : Cache) (bo : Backoff)
    (now : Nat) (env : ProviderEnv) (exec : Nat → Bool × Str) (execIdx : Nat)
    (msgs0 : List Msg) (executed0 : List Str) (w : Except Str Unit) :
    (ai_phase problem_key prompt cache disk bo now env exec execIdx msgs0 executed0 w).backoff =
      (ask_ai_hybrid prompt env now bo).backoff := by
  rw [ai_phase]
  dsimp only
  split
  · rfl
  · split <;> rfl

theorem eligible_head (prompt : Str) (env : ProviderEnv) (t : Nat) (ts : List Nat)
    (st : Backoff) (h : eligibleRunB prompt env (t :: ts) st = true) :
    ¬(st.active = true ∧ t < st.next_try) ∧
      eligibleRunB prompt env ts (ask_ai_hybrid prompt env t st).backoff = true := by
  rw [eligibleRunB] at h
  rcases Bool.and_eq_true_iff.mp h with ⟨h1, h2⟩
  refine ⟨?_, h2⟩
  intro hc
  rw [hc.1] at h1
  simp at h1
  omega

theorem backoff_growth_aux (env : ProviderEnv)
    (hg : ∀ p, env.gemini p = none) (ho : ∀ p, env.openai p = none) :
    ∀ (prompt : Str) (ts : List Nat) (t : Nat) (st : Backoff),
      eligibleRunB prompt env (ts ++ [t]) st = true →
      (ask_run prompt env (ts ++ [t]) st).2.active = true ∧
        (ask_run prompt env (ts ++ [t]) st).2.wait_min = st.wait_min * 2 ^ (ts.length + 1) ∧
        (ask_run prompt env (ts ++ [t]) st).2.next_try =
          t + st.wait_min * 2 ^ ts.length * 60 := by
  intro prompt ts
  induction ts with
  | nil =>
    intro t st helig
    rcases eligible_head prompt env t [] st (by simpa using helig) with ⟨hgate, _⟩
    have hstep := (ask_allfail prompt env t st hgate (hg prompt) (ho prompt)).2
    have h2 : (ask_run prompt env ([] ++ [t]) st).2 =
        (ask_ai_hybrid prompt env t st).backoff := rfl
    rw [h2, hstep]
    exact ⟨rfl, by simp, by simp⟩
  | cons t0 ts ih =>
    intro t st helig
    rcases eligible_head prompt env t0 (ts ++ [t]) st (by simpa using helig) with ⟨hgate, hrest⟩
    have hstep := (ask_allfail prompt env t0 st hgate (hg prompt) (ho prompt)).2
    have ihr := ih t _ hrest
    rw [hstep] at ihr
    have h2 : (ask_run prompt env ((t0 :: ts) ++ [t]) st).2 =
        (ask_run prompt env (ts ++ [t]) (ask_ai_hybrid prompt env t0 st).backoff).2 := rfl
    rw [h2, hstep]
    refine ⟨ihr.1, ?_, ?_⟩
    · rw [ihr.2.1]
      simp only [List.length_cons]
      ring
    · rw [ihr.2.2]
      simp only [List.length_cons]
      ring

theorem ai_phase_executed (problem_key prompt : Str) (cache disk : Cache) (bo : Backoff)
    (now : Nat) (env : ProviderEnv) (exec : Nat → Bool × Str) (execIdx : Nat)
    (msgs0 : List Msg) (executed0 : List Str) (w : Except Str Unit) :
    (ai_phase problem_key prompt cache disk bo now env exec execIdx msgs0 executed0 w).executed =
        executed0 ∨
      (ai_phase problem_key prompt cache disk bo now env exec execIdx msgs0
            executed0 w).executed =
        executed0 ++ [extract_cmd (ask_ai_hybrid prompt env now bo).text] := by
  rw [ai_phase]
  dsimp only
  split
  · exact Or.inl rfl
  · split <;> exact Or.inr rfl

/-! ### Claim theorems -/

/-- C2: while `ERROR_BACKOFF` is active and every call time is strictly
before `next_try`, each `ask_ai_hybrid` call of the sequence returns the
cooldown error immediately, contacts zero providers, sends no
notification, and leaves the backoff state unchanged — so the same holds
for every repeated call until the current time reaches `next_try`. -/
theorem ask_backoff_gating (prompt : Str) (env : ProviderEnv) (st : Backoff) (ts : List Nat)
    (hact : st.active = true) (hts : ∀ t ∈ ts, t < st.next_try) :
    (∀ o ∈ (ask_run prompt env ts st).1,
        o.text = "ERROR: AI Cooling Down".toList ∧ o.providerCalls = 0 ∧
          o.msgs = [] ∧ o.backoff = st) ∧
      (ask_run prompt env ts st).2 = st := by
  induction ts with
  | nil => exact ⟨fun o ho => absurd ho (by simp [ask_run]), rfl⟩
  | cons t ts ih =>
    have hgt := ask_gate prompt env t st ⟨hact, hts t (by simp)⟩
    have ihr := ih (fun t2 ht2 => hts t2 (by simp [ht2]))
    have hfst : (ask_run prompt env (t :: ts) st).1 =
        ask_ai_hybrid prompt env t st ::
          (ask_run prompt env ts (ask_ai_hybrid prompt env t st).backoff).1 := rfl
    have hsnd : (ask_run prompt env (t :: ts) st).2 =
        (ask_run prompt env ts (ask_ai_hybrid prompt env t st).backoff).2 := rfl
    have hbo : (ask_ai_hybrid prompt env t st).backoff = st := by rw [hgt]
    constructor
    · intro o ho
      rw [hfst, hbo] at ho
      rcases List.mem_cons.mp ho with rfl | ho2
      · rw [hgt]
        exact ⟨rfl, rfl, rfl, rfl⟩
      · exact ihr.1 o ho2
    · rw [hsnd, hbo]
      exact ihr.2

/-- C2 witness: two calls at times 10 and 999 against an active backoff
window ending at 1000 both return the cooldown error with zero provider
calls and leave the state unchanged. -/
theorem ask_backoff_gating_witness :
    (∀ o ∈ (ask_run [] noProviderEnv [10, 999]
        { active := true, wait_min := 5, next_try := 1000 }).1,
        o.text = "ERROR: AI Cooling Down".toList ∧ o.providerCalls = 0 ∧
          o.msgs = [] ∧
          o.backoff = { active := true, wait_min := 5, next_try := 1000 }) ∧
      (ask_run [] noProviderEnv [10, 999]
          { active := true, wait_min := 5, next_try := 1000 }).2 =
        { active := true, wait_min := 5, next_try := 1000 } :=
  ask_backoff_gating [] noProviderEnv
    { active := true, wait_min := 5, next_try := 1000 } [10, 999] rfl (by decide)

/-- C3: the backoff wait is only ever mutated by doubling — every
`ask_ai_hybrid` call either leaves the state untouched or arms the window
and doubles the wait; a successful primary-provider call never touches it;
`intelligent_troubleshoot` obeys the same dichotomy; and over any run of
`N = ts.length + 1` consecutive full-chain failures starting from base
wait `W = st.wait_min`, the last failure arms `active := true` with
`next_try = now + (W * 2 ^ (N - 1)) * 60` seconds (that window's wait is
`W * 2 ^ (N - 1)` minutes, set before the doubling) and leaves
`wait_min = W * 2 ^ N` for the window after it. -/
theorem backoff_only_doubles_and_grows :
    (∀ (prompt : Str) (env : ProviderEnv) (now : Nat) (st : Backoff),
        (ask_ai_hybrid prompt env now st).backoff = st ∨
          (ask_ai_hybrid prompt env now st).backoff =
            { active := true, wait_min := st.wait_min * 2,
              next_try := now + st.wait_min * 60 }) ∧
      (∀ (prompt : Str) (env : ProviderEnv) (now : Nat) (st : Backoff) (t : Str),
          env.gemini prompt = some t →
          (ask_ai_hybrid prompt env now st).backoff = st) ∧
      (∀ (key desc : Str) (cache disk : Cache) (bo : Backoff) (now : Nat)
          (env : ProviderEnv) (exec : Nat → Bool × Str) (w : Except Str Unit),
          (intelligent_troubleshoot key desc cache disk bo now env exec w).backoff = bo ∨
            (intelligent_troubleshoot key desc cache disk bo now env exec w).backoff =
              { active := true, wait_min := bo.wait_min * 2,
                next_try := now + bo.wait_min * 60 }) ∧
      (∀ (prompt : Str) (env : ProviderEnv) (ts : List Nat) (t : Nat) (st : Backoff),
          (∀ p, env.gemini p = none) → (∀ p, env.openai p = none) →
          eligibleRunB prompt env (ts ++ [t]) st = true →
          (ask_run prompt env (ts ++ [t]) st).2.active = true ∧
            (ask_run prompt env (ts ++ [t]) st).2.wait_min =
              st.wait_min * 2 ^ (ts.length + 1) ∧
            (ask_run prompt env (ts ++ [t]) st).2.next_try =
              t + st.wait_min * 2 ^ ts.length * 60) := by
  refine ⟨ask_backoff_cases, ask_gemini_preserves, ?_, ?_⟩
  · intro key desc cache disk bo now env exec w
    cases hc : lookupA key cache with
    | some c0 =>
      rcases hx : exec 0 with ⟨s, out⟩
      cases s
      · simp only [intelligent_troubleshoot, hc, hx, Bool.false_eq_true, if_false]
        rw [ai_phase_backoff]
        exact ask_backoff_cases _ env now bo
      · simp [intelligent_troubleshoot, hc, hx]
    | none =>
      simp only [intelligent_troubleshoot, hc]
      rw [ai_phase_backoff]
      exact ask_backoff_cases _ env now bo
  · intro prompt env ts t st hg ho helig
    exact backoff_growth_aux env hg ho prompt ts t st helig

/-- C3 witness: three consecutive full-chain failures at times 0, 300 and
900 from the initial state (base wait 5) end with `active = true`,
`wait_min = 5 * 2 ^ 3 = 40` and `next_try = 900 + 5 * 2 ^ 2 * 60 = 2100`. -/
theorem backoff_only_doubles_and_grows_witness :
    (ask_run [] noProviderEnv ([0, 300] ++ [900]) ERROR_BACKOFF_init).2.active = true ∧
      (ask_run [] noProviderEnv ([0, 300] ++ [900]) ERROR_BACKOFF_init).2.wait_min =
        ERROR_BACKOFF_init.wait_min * 2 ^ ([0, 300].length + 1) ∧
      (ask_run [] noProviderEnv ([0, 300] ++ [900]) ERROR_BACKOFF_init).2.next_try =
        900 + ERROR_BACKOFF_init.wait_min * 2 ^ [0, 300].length * 60 :=
  backoff_only_doubles_and_grows.2.2.2 [] noProviderEnv [0, 300] 900 ERROR_BACKOFF_init
    (fun _ => rfl) (fun _ => rfl) (by decide)

/-- C8: the `learn` step updates the in-memory mapping to map the key to the
command regardless of the persistence outcome; a persistence failure is
absorbed into a report (the function is total, nothing propagates), the
disk keeps its previous contents, and the in-memory entry is kept. -/
theorem learn_memory_update_and_absorbed_persistence (k cmd : Str) (mem disk : Cache)
    (w : Except Str Unit) :
    lookupA k (learn k cmd mem disk w).1 = some cmd ∧
      (learn k cmd mem disk w).1 = insertA k cmd mem ∧
      (w = Except.ok () →
        (learn k cmd mem disk w).2.1 = insertA k cmd mem ∧
          (learn k cmd mem disk w).2.2 = []) ∧
      (∀ e : Str, w = Except.error e →
        (learn k cmd mem disk w).2.1 = disk ∧
          (learn k cmd mem disk w).2.2 = [Msg.cacheSaveError e]) := by
  refine ⟨lookupA_insertA_self k cmd mem, rfl, ?_, ?_⟩
  · rintro rfl
    exact ⟨rfl, rfl⟩
  · rintro e rfl
    exact ⟨rfl, rfl⟩

/-- C8 witness: a failing persistence still leaves the learned entry in
memory, keeps the previous disk contents, and reports the error. -/
theorem learn_memory_update_and_absorbed_persistence_witness :
    lookupA ("k".toList)
        (learn ("k".toList) ("c".toList) [] [] (Except.error ("boom".toList))).1 =
      some ("c".toList) ∧
      (learn ("k".toList) ("c".toList) [] [] (Except.error ("boom".toList))).2.1 = [] ∧
      (learn ("k".toList) ("c".toList) [] [] (Except.error ("boom".toList))).2.2 =
        [Msg.cacheSaveError ("boom".toList)] :=
  ⟨(learn_memory_update_and_absorbed_persistence ("k".toList) ("c".toList) [] []
      (Except.error ("boom".toList))).1,
    ((learn_memory_update_and_absorbed_persistence ("k".toList) ("c".toList) [] []
        (Except.error ("boom".toList))).2.2.2 ("boom".toList) rfl).1,
    ((learn_memory_update_and_absorbed_persistence ("k".toList) ("c".toList) [] []
        (Except.error ("boom".toList))).2.2.2 ("boom".toList) rfl).2⟩

/-- C9: the startup load yields the stored mapping when the backing file
exists and parses, and yields the empty mapping (without failing — the
loader is a total function) when the file is absent or when reading or
parsing raises. -/
theorem startup_load_robust :
    (∀ m : Cache, startup_load true (Except.ok m) = m) ∧
      (∀ e : Str, startup_load true (Except.error e) = []) ∧
      (∀ rp : Except Str Cache, startup_load false rp = []) :=
  ⟨fun _ => rfl, fun _ => rfl, fun _ => rfl⟩

/-- C10: the behavior of `intelligent_troubleshoot` is independent of the
`is_major` classification: forcing the flag to any boolean yields the
identical result — same return value, same cache and disk state, same
executed commands, same notifications. The flag is computed but never
read afterwards. -/
theorem troubleshoot_independent_of_is_major (b : Bool) (key desc : Str)
    (cache disk : Cache) (bo : Backoff) (now : Nat) (env : ProviderEnv)
    (exec : Nat → Bool × Str) (w : Except Str Unit) :
    intelligent_troubleshoot_forcedMajor b key desc cache disk bo now env exec w =
      intelligent_troubleshoot key desc cache disk bo now env exec w := rfl

/-- C1: the cache is learned exactly on AI-derived success.
(i) With no cache entry, if the chain answers without the in-band error
marker and the executed AI command succeeds, the cache afterwards maps the
key to that command; (ii) the same after a failed cached attempt;
(iii)/(iv) if the AI-suggested execution fails (with or without a prior
cached attempt) the cache is unchanged; (v) after a cache-hit success the
cache is unchanged and the call returns fixed. -/
theorem troubleshoot_learns_only_on_ai_success
    (key desc : Str) (cache disk : Cache) (bo : Backoff) (now : Nat)
    (env : ProviderEnv) (exec : Nat → Bool × Str) (w : Except Str Unit) :
    (lookupA key cache = none →
      pyContains (ask_ai_hybrid desc env now bo).text ERROR_marker = false →
      (exec 0).1 = true →
      lookupA key (intelligent_troubleshoot key desc cache disk bo now env exec w).cache =
        some (extract_cmd (ask_ai_hybrid desc env now bo).text)) ∧
      (∀ c0, lookupA key cache = some c0 → (exec 0).1 = false →
        pyContains (ask_ai_hybrid (desc ++ failNote c0) env now bo).text
            ERROR_marker = false →
        (exec 1).1 = true →
        lookupA key (intelligent_troubleshoot key desc cache disk bo now env exec w).cache =
          some (extract_cmd (ask_ai_hybrid (desc ++ failNote c0) env now bo).text)) ∧
      (lookupA key cache = none → (exec 0).1 = false →
        (intelligent_troubleshoot key desc cache disk bo now env exec w).cache = cache) ∧
      (∀ c0, lookupA key cache = some c0 → (exec 0).1 = false → (exec 1).1 = false →
        (intelligent_troubleshoot key desc cache disk bo now env exec w).cache = cache) ∧
      (∀ c0, lookupA key cache = some c0 → (exec 0).1 = true →
        (intelligent_troubleshoot key desc cache disk bo now env exec w).cache = cache ∧
          (intelligent_troubleshoot key desc cache disk bo now env exec w).fixed = true) := by
  refine ⟨?_, ?_, ?_, ?_, ?_⟩
  · intro hnone herr hex
    rcases hx : exec 0 with ⟨s, out⟩
    rw [hx] at hex
    simp at hex
    subst hex
    simp [intelligent_troubleshoot, ai_phase, hnone, herr, hx, learn, lookupA_insertA_self]
  · intro c0 hc hfail herr hex
    rcases hx0 : exec 0 with ⟨s0, o0⟩
    rw [hx0] at hfail
    simp at hfail
    subst hfail
    rcases hx1 : exec 1 with ⟨s1, o1⟩
    rw [hx1] at hex
    simp at hex
    subst hex
    simp [intelligent_troubleshoot, ai_phase, hc, herr, hx0, hx1, learn, lookupA_insertA_self]
  · intro hnone hfail
    rcases hx : exec 0 with ⟨s, out⟩
    rw [hx] at hfail
    simp at hfail
    subst hfail
    cases herr : pyContains (ask_ai_hybrid desc env now bo).text ERROR_marker <;>
      simp [intelligent_troubleshoot, ai_phase, hnone, herr, hx]
  · intro c0 hc hfail1 hfail2
    rcases hx0 : exec 0 with ⟨s0, o0⟩
    rw [hx0] at hfail1
    simp at hfail1
    subst hfail1
    rcases hx1 : exec 1 with ⟨s1, o1⟩
    rw [hx1] at hfail2
    simp at hfail2
    subst hfail2
    cases herr : pyContains (ask_ai_hybrid (desc ++ failNote c0) env now bo).text
        ERROR_marker <;>
      simp [intelligent_troubleshoot, ai_phase, hc, herr, hx0, hx1]
  · intro c0 hc hex
    rcases hx : exec 0 with ⟨s, out⟩
    rw [hx] at hex
    simp at hex
    subst hex
    simp [intelligent_troubleshoot, hc, hx]

/-- C1 witness (spec Scenario A): key `nas_down`, empty cache, provider
answers `"mount point missing\nsudo mount -a"`, executor succeeds — the
cache afterwards maps the key to the extracted command. -/
theorem troubleshoot_learns_only_on_ai_success_witness :
    lookupA ("nas_down".toList)
        (intelligent_troubleshoot ("nas_down".toList) ("NAS is not mounted.".toList) [] []
          ERROR_BACKOFF_init 0 (geminiEnv ("mount point missing\nsudo mount -a".toList))
          (execConst true) (Except.ok ())).cache =
      some (extract_cmd
        (ask_ai_hybrid ("NAS is not mounted.".toList)
          (geminiEnv ("mount point missing\nsudo mount -a".toList)) 0
          ERROR_BACKOFF_init).text) :=
  (troubleshoot_learns_only_on_ai_success ("nas_down".toList) ("NAS is not mounted.".toList)
      [] [] ERROR_BACKOFF_init 0 (geminiEnv ("mount point missing\nsudo mount -a".toList))
      (execConst true) (Except.ok ())).1 rfl (by decide) rfl

/-- C4: when a cached command exists for the key and its execution fails,
the engine does not return there: the provider chain is asked exactly
once, with the description extended by the note naming the cached command
that was tried and stating that it failed (and that description indeed
contains the cached command as a substring). -/
theorem troubleshoot_fallback_on_cache_fail
    (key desc : Str) (cache disk : Cache) (bo : Backoff) (now : Nat)
    (env : ProviderEnv) (exec : Nat → Bool × Str) (w : Except Str Unit) (c0 : Str)
    (hc : lookupA key cache = some c0) (hfail : (exec 0).1 = false) :
    (intelligent_troubleshoot key desc cache disk bo now env exec w).asked =
        [desc ++ failNote c0] ∧
      (intelligent_troubleshoot key desc cache disk bo now env exec w).asked.length = 1 ∧
      pyContains (desc ++ failNote c0) c0 = true := by
  rcases hx : exec 0 with ⟨s, out⟩
  rw [hx] at hfail
  simp at hfail
  subst hfail
  have hasked : (intelligent_troubleshoot key desc cache disk bo now env exec w).asked =
      [desc ++ failNote c0] := by
    simp only [intelligent_troubleshoot, hc, hx, Bool.false_eq_true, if_false]
    exact ai_phase_asked key (desc ++ failNote c0) cache disk bo now env exec 1 _ _ w
  refine ⟨hasked, by rw [hasked]; rfl, ?_⟩
  exact (pyContains_iff _ _).mpr
    ⟨desc ++ "\x0aNote: I already tried \x27".toList, "\x27 and it failed.".toList,
      by simp [failNote]⟩

/-- C4 witness: cached command `sudo mount -a` fails; the chain is asked
once with the annotated description. -/
theorem troubleshoot_fallback_on_cache_fail_witness :
    (intelligent_troubleshoot ("nas_down".toList) ("NAS down".toList)
          [(("nas_down".toList), ("sudo mount -a".toList))] [] ERROR_BACKOFF_init 0
          noProviderEnv (execConst false) (Except.ok ())).asked =
        ["NAS down".toList ++ failNote ("sudo mount -a".toList)] ∧
      (intelligent_troubleshoot ("nas_down".toList) ("NAS down".toList)
          [(("nas_down".toList), ("sudo mount -a".toList))] [] ERROR_BACKOFF_init 0
          noProviderEnv (execConst false) (Except.ok ())).asked.length = 1 ∧
      pyContains ("NAS down".toList ++ failNote ("sudo mount -a".toList))
        ("sudo mount -a".toList) = true :=
  troubleshoot_fallback_on_cache_fail ("nas_down".toList) ("NAS down".toList)
    [(("nas_down".toList), ("sudo mount -a".toList))] [] ERROR_BACKOFF_init 0
    noProviderEnv (execConst false) (Except.ok ()) ("sudo mount -a".toList) rfl rfl

/-- C6: for a key with no cache entry, every command handed to the
executor in that invocation is the one extracted from the provider
chain's answer (no cache-lookup execution occurs), and at most one
execution happens. -/
theorem troubleshoot_cache_first
    (key desc : Str) (cache disk : Cache) (bo : Backoff) (now : Nat)
    (env : ProviderEnv) (exec : Nat → Bool × Str) (w : Except Str Unit)
    (hnone : lookupA key cache = none) :
    (∀ c ∈ (intelligent_troubleshoot key desc cache disk bo now env exec w).executed,
        c = extract_cmd (ask_ai_hybrid desc env now bo).text) ∧
      (intelligent_troubleshoot key desc cache disk bo now env exec w).executed.length ≤ 1 := by
  have hred : intelligent_troubleshoot key desc cache disk bo now env exec w =
      ai_phase key desc cache disk bo now env exec 0 [Msg.issueDetected desc] [] w := by
    rw [intelligent_troubleshoot, hnone]
  rcases ai_phase_executed key desc cache disk bo now env exec 0
      [Msg.issueDetected desc] [] w with hex | hex
  · rw [hred, hex]
    exact ⟨fun c hc => absurd hc (by simp), by simp⟩
  · rw [hred, hex]
    constructor
    · intro c hc
      simpa using hc
    · simp

/-- C6 witness: empty cache, provider answers, executor fails — the only
executed command is the provider-extracted one. -/
theorem troubleshoot_cache_first_witness :
    (∀ c ∈ (intelligent_troubleshoot ("cockpit_down".toList) ("svc down".toList) [] []
          ERROR_BACKOFF_init 0 (geminiEnv ("diag\nsystemctl restart cockpit".toList))
          (execConst false) (Except.ok ())).executed,
        c = extract_cmd (ask_ai_hybrid ("svc down".toList)
            (geminiEnv ("diag\nsystemctl restart cockpit".toList)) 0
            ERROR_BACKOFF_init).text) ∧
      (intelligent_troubleshoot ("cockpit_down".toList) ("svc down".toList) [] []
          ERROR_BACKOFF_init 0 (geminiEnv ("diag\nsystemctl restart cockpit".toList))
          (execConst false) (Except.ok ())).executed.length ≤ 1 :=
  troubleshoot_cache_first ("cockpit_down".toList) ("svc down".toList) [] []
    ERROR_BACKOFF_init 0 (geminiEnv ("diag\nsystemctl restart cockpit".toList))
    (execConst false) (Except.ok ()) rfl

/-- C7: a provider response delivered as a chain success (primary provider
answers, backoff gate passed, exactly one provider call, backoff
unchanged) whose text contains the substring `"ERROR"` anywhere is
nevertheless treated as AI failure: `intelligent_troubleshoot` returns
false, executes nothing and changes neither cache nor disk — the error
channel is an in-band substring test on the returned text. -/
theorem troubleshoot_inband_error_substring
    (key desc : Str) (cache disk : Cache) (bo : Backoff) (now : Nat)
    (env : ProviderEnv) (exec : Nat → Bool × Str) (w : Except Str Unit) (rawText : Str)
    (hnone : lookupA key cache = none)
    (hgate : ¬(bo.active = true ∧ now < bo.next_try))
    (hg : env.gemini desc = some rawText)
    (herr : pyContains (pyStrip rawText) ERROR_marker = true) :
    (intelligent_troubleshoot key desc cache disk bo now env exec w).fixed = false ∧
      (intelligent_troubleshoot key desc cache disk bo now env exec w).executed = [] ∧
      (intelligent_troubleshoot key desc cache disk bo now env exec w).cache = cache ∧
      (intelligent_troubleshoot key desc cache disk bo now env exec w).disk = disk ∧
      (intelligent_troubleshoot key desc cache disk bo now env exec w).providerCalls = 1 ∧
      (intelligent_troubleshoot key desc cache disk bo now env exec w).backoff = bo := by
  have hask := ask_gemini_ok desc env now bo rawText hgate hg
  simp [intelligent_troubleshoot, ai_phase, hnone, hask, herr]

/-- C7 witness: the response `"Diagnosis: ERROR on disk\nfsck /dev/sda1"`
is a chain success but is classified as AI failure — nothing is executed,
nothing learned. -/
theorem troubleshoot_inband_error_substring_witness :
    (intelligent_troubleshoot ("disk".toList) ("disk issue".toList) [] []
          ERROR_BACKOFF_init 0 (geminiEnv ("Diagnosis: ERROR on disk\nfsck /dev/sda1".toList))
          (execConst true) (Except.ok ())).fixed = false ∧
      (intelligent_troubleshoot ("disk".toList) ("disk issue".toList) [] []
          ERROR_BACKOFF_init 0 (geminiEnv ("Diagnosis: ERROR on disk\nfsck /dev/sda1".toList))
          (execConst true) (Except.ok ())).executed = [] ∧
      (intelligent_troubleshoot ("disk".toList) ("disk issue".toList) [] []
          ERROR_BACKOFF_init 0 (geminiEnv ("Diagnosis: ERROR on disk\nfsck /dev/sda1".toList))
          (execConst true) (Except.ok ())).cache = [] ∧
      (intelligent_troubleshoot ("disk".toList) ("disk issue".toList) [] []
          ERROR_BACKOFF_init 0 (geminiEnv ("Diagnosis: ERROR on disk\nfsck /dev/sda1".toList))
          (execConst true) (Except.ok ())).disk = [] ∧
      (intelligent_troubleshoot ("disk".toList) ("disk issue".toList) [] []
          ERROR_BACKOFF_init 0 (geminiEnv ("Diagnosis: ERROR on disk\nfsck /dev/sda1".toList))
          (execConst true) (Except.ok ())).providerCalls = 1 ∧
      (intelligent_troubleshoot ("disk".toList) ("disk issue".toList) [] []
          ERROR_BACKOFF_init 0 (geminiEnv ("Diagnosis: ERROR on disk\nfsck /dev/sda1".toList))
          (execConst true) (Except.ok ())).backoff = ERROR_BACKOFF_init :=
  troubleshoot_inband_error_substring ("disk".toList) ("disk issue".toList) [] []
    ERROR_BACKOFF_init 0 (geminiEnv ("Diagnosis: ERROR on disk\nfsck /dev/sda1".toList))
    (execConst true) (Except.ok ()) ("Diagnosis: ERROR on disk\nfsck /dev/sda1".toList)
    rfl (by decide) rfl (by decide)

/-- C5 counterexample: for the raw response `"diag\nMAJOR: reboot"` the
code extracts `"reboot"`, while the last non-empty line of the raw text is
`"MAJOR: reboot"` — the extracted command does not equal the last
non-empty line, and a full run executes the stripped command. -/
theorem extract_cmd_not_last_nonempty_line :
    extract_cmd ("diag\nMAJOR: reboot".toList) ≠
        spec_last_nonempty_line ("diag\nMAJOR: reboot".toList) ∧
      extract_cmd ("diag\nMAJOR: reboot".toList) = "reboot".toList ∧
      spec_last_nonempty_line ("diag\nMAJOR: reboot".toList) = "MAJOR: reboot".toList ∧
      (intelligent_troubleshoot ("svc_down".toList) ("d".toList) [] [] ERROR_BACKOFF_init 0
          (geminiEnv ("diag\nMAJOR: reboot".toList)) (execConst true)
          (Except.ok ())).executed = ["reboot".toList] :=
  ⟨by decide, by decide, by decide, by decide⟩

/-- C5 amended: for every nonempty, whitespace-stripped raw text (the
shape the chain returns), the extracted command equals the last non-empty
line with every occurrence of the `"MAJOR: "` marker removed and
surrounding whitespace trimmed; and `is_major` is true exactly when the
raw text contains `"MAJOR:"` or the extracted command contains `"rm "` or
`"reboot"`. -/
theorem extract_cmd_amended (raw : Str) (hne : raw ≠ []) (htr : pyStrip raw = raw) :
    extract_cmd raw =
        pyStrip (pyReplace (spec_last_nonempty_line raw) ("MAJOR: ".toList) []) ∧
      (compute_is_major raw (extract_cmd raw) = true ↔
        (∃ s t, s ++ "MAJOR:".toList ++ t = raw) ∨
          (∃ s t, s ++ "rm ".toList ++ t = extract_cmd raw) ∨
            (∃ s t, s ++ "reboot".toList ++ t = extract_cmd raw)) := by
  constructor
  · unfold extract_cmd
    rw [lastline_eq_spec_last_nonempty raw hne htr]
  · unfold compute_is_major
    simp only [Bool.or_eq_true, pyContains_iff, or_assoc]

/-- C5 amended witness: instantiated at the counterexample text. -/
theorem extract_cmd_amended_witness :
    extract_cmd ("diag\nMAJOR: reboot".toList) =
        pyStrip (pyReplace (spec_last_nonempty_line ("diag\nMAJOR: reboot".toList))
          ("MAJOR: ".toList) []) ∧
      (compute_is_major ("diag\nMAJOR: reboot".toList)
            (extract_cmd ("diag\nMAJOR: reboot".toList)) = true ↔
        (∃ s t, s ++ "MAJOR:".toList ++ t = "diag\nMAJOR: reboot".toList) ∨
          (∃ s t, s ++ "rm ".toList ++ t = extract_cmd ("diag\nMAJOR: reboot".toList)) ∨
            (∃ s t, s ++ "reboot".toList ++ t =
              extract_cmd ("diag\nMAJOR: reboot".toList))) :=
  extract_cmd_amended ("diag\nMAJOR: reboot".toList) (by decide) (by decide)

end PiMonitor
